import Mathlib

/-!
Shallow embedding of the two Galaxy data-manager pipelines of this
repository (`data_manager_amrfinderplus.py` and `data_manager_mlst.py`):
the merge step of `MLSTDataManager.make_blast_database`, the version
resolution of `AmrFinderPlusDataManager.read_versions`, the catalog
entries written by both `write_output_json` methods, and the
try/except/finally orchestration of both `run` methods, including the
`sys.exit(1)` path of `MLSTDataManager.download_pubmlst_databases`.

Python text lines are modelled as `List Char` (a line keeps its trailing
newline character, exactly as Python file iteration yields it), so the
combined output file is the concatenation, as a `List Char`, of everything
the loop writes.
-/

namespace GalaxyTrakr

/-- Python substring containment `needle in hay`, over character lists. -/
def hasSub (needle : List Char) : List Char → Bool
  | [] => needle.isPrefixOf []
  | c :: rest => needle.isPrefixOf (c :: rest) || hasSub needle rest

/-- The exclusion marker of `make_blast_database`: `"not a locus"`. -/
def markerL : List Char := "not a locus".toList

/-- One line as written by the merge loop: a line starting with the `>`
sentinel becomes `">" + scheme + "." + line[1:]`; any other line is
written verbatim. -/
def processLine (scheme line : List Char) : List Char :=
  if line.head? = some '>' then '>' :: (scheme ++ '.' :: line.tail) else line

/-- The bytes appended for one `.tfa` file: `for line in infile:
if "not a locus" not in line: write(...)`. Filtering is per line. -/
def processFile (scheme : List Char) : List (List Char) → List Char
  | [] => []
  | line :: rest =>
      (if hasSub markerL line then [] else processLine scheme line)
        ++ processFile scheme rest

/-- A file inside a scheme directory: its name and its lines. -/
structure MFile where
  fname : List Char
  lines : List (List Char)
deriving DecidableEq, Repr

/-- A directory entry of the downloaded bundle: the scheme name, whether
it is a directory, and the files it holds (in `os.listdir` order). -/
structure MScheme where
  dirname : List Char
  isDir : Bool
  files : List MFile
deriving DecidableEq, Repr

/-- Python `f.endswith(".tfa")`. -/
def endsWithTfa (f : List Char) : Bool := ".tfa".toList.isSuffixOf f

/-- The bytes appended for one scheme directory: every `.tfa` file of the
directory, in listing order; non-directories contribute nothing. -/
def processFiles (scheme : List Char) : List MFile → List Char
  | [] => []
  | f :: rest =>
      (if endsWithTfa f.fname then processFile scheme f.lines else [])
        ++ processFiles scheme rest

/-- The bytes the merge loop writes for a whole bundle (the scheme
directories of `dst_dir`, in listing order). -/
def mergeOutput : List MScheme → List Char
  | [] => []
  | s :: rest =>
      (if s.isDir then processFiles s.dirname s.files else [])
        ++ mergeOutput rest

/-- The combined file after one merge run: `blast_file` is opened with
mode `"a"`, so the run appends its output to whatever the file already
holds. -/
def mergeAppend (existing : List Char) (b : List MScheme) : List Char :=
  existing ++ mergeOutput b

/-- One catalog entry as written by either `write_output_json`:
the AMRFinderPlus entry carries a `db_version` field, the MLST entry does
not (`dbVersion := none`). -/
structure CatalogEntry where
  value : String
  name : String
  dbVersion : Option String
  path : String
deriving DecidableEq, Repr

/-- The whole document written to the job JSON: one data table holding
the entries. -/
structure CatalogDoc where
  table : String
  entries : List CatalogEntry
deriving DecidableEq, Repr

/-- Observable effects of a run: the best-effort `shutil.rmtree` of the
temporary directory, and each (over)write of the job JSON file. -/
inductive Event
  | cleanupEv
  | publishEv (doc : CatalogDoc)
deriving DecidableEq, Repr

/-- Outcome of one Python statement that can raise an `Exception`. -/
inductive SR
  | ok
  | raise
deriving DecidableEq, Repr

/-- Outcome of a `subprocess.run(..., check=True)` call: the process ran
and returned zero, ran and returned nonzero (`CalledProcessError`), or
could not be started at all (`FileNotFoundError`). -/
inductive ProcOutcome
  | success
  | nonzero
  | startFailure
deriving DecidableEq, Repr

/-- Environment of one AMRFinderPlus run: how each stage of
`AmrFinderPlusDataManager.run` behaves. `versionFile`/`dbfmtFile` are the
contents of `version.txt` and `database_format_version.txt` inside
`latest/`, or `none` when the file is missing/unreadable. -/
structure AmrEnv where
  readInput : SR
  update : ProcOutcome
  versionFile : Option String
  dbfmtFile : Option String
  copy : SR
deriving DecidableEq, Repr

/-- The characters Python `str.strip()` removes. -/
def pyStripChars : List Char := [' ', '\t', '\n', '\r', '\x0b', '\x0c']

/-- Strip those characters from both ends of a character list. -/
def pyStrip (l : List Char) : List Char :=
  (((l.dropWhile (fun c => pyStripChars.contains c)).reverse.dropWhile
      (fun c => pyStripChars.contains c)).reverse)

/-- Python `f.readline().strip()` on a file with content `s`: the first
line, trimmed of surrounding whitespace (the newline is whitespace, so
taking up to the first newline and stripping agrees with readline+strip). -/
def firstLineStrip (s : String) : String :=
  ⟨pyStrip (s.toList.takeWhile (fun c => c ≠ '\n'))⟩

/-- The `try` block of `AmrFinderPlusDataManager.run`:
`read_input_json; run_amrfinder_update; read_versions; copy_database`.
Every raised exception aborts the block (`throw`); on success it yields
the `(version, dbformat)` pair read by `read_versions`. -/
def amrBody (e : AmrEnv) : Except Unit (String × String) :=
  match e.readInput with
  | .raise => .error ()
  | .ok =>
    match e.update with
    | .success =>
      match e.versionFile with
      | none => .error ()
      | some sv =>
        match e.dbfmtFile with
        | none => .error ()
        | some sf =>
          match e.copy with
          | .raise => .error ()
          | .ok => .ok (firstLineStrip sv, firstLineStrip sf)
    | _ => .error ()

/-- The `(version, dbformat)` pair the publisher sees: the values read
by `read_versions` when the whole `try` block succeeded, and the
sentinel `("unknown", "unknown")` set by the `except` handler otherwise. -/
def amrResolved (e : AmrEnv) : String × String :=
  match amrBody e with
  | .ok p => p
  | .error _ => ("unknown", "unknown")

/-- The document `AmrFinderPlusDataManager.write_output_json` writes for
a `(version, dbformat)` pair. -/
def amrEntry (vf : String × String) : CatalogDoc :=
  { table := "amrfinderplus_versioned_database",
    entries := [{ value := "amrfinderplus_" ++ vf.1 ++ "_" ++ vf.2,
                  name := vf.1 ++ " (" ++ vf.2 ++ ")",
                  dbVersion := some vf.2,
                  path := "amrfinderplus-db" }] }

/-- Result of one whole process run: its event trace and its exit code. -/
structure RunResult where
  events : List Event
  exitCode : Nat
deriving DecidableEq, Repr

/-- `AmrFinderPlusDataManager.run`: the `try` block, an `except
Exception` handler that substitutes the sentinel pair, and a `finally`
that always calls `cleanup()` then `write_output_json()`. No path calls
`sys.exit`, so the process exit code is always 0. -/
def amrRun (e : AmrEnv) : RunResult :=
  { events := [Event.cleanupEv, Event.publishEv (amrEntry (amrResolved e))],
    exitCode := 0 }

/-- Environment of one MLST run: how each stage of `MLSTDataManager.run`
behaves. `fileOps` covers the `shutil`/`open` filesystem work of
`make_blast_database`; `speciesMapFetch` is the `urlopen` of
`download_scheme_species_map`, whose failure is caught locally. -/
structure MlstEnv where
  readInput : SR
  download : ProcOutcome
  fileOps : SR
  makeblastdb : ProcOutcome
  speciesMapFetch : SR
deriving DecidableEq, Repr

/-- How the `try` block of `MLSTDataManager.run` ends: normally, with an
`Exception` (caught by the `except Exception` handler), or with the
`SystemExit` raised by `sys.exit(1)` in `download_pubmlst_databases`
when the downloader returns nonzero — `SystemExit` is not an
`Exception`, so it escapes the handler (the `finally` still runs). -/
inductive BodyOutcome
  | normal
  | exnCaught
  | sysExit (code : Nat)
deriving DecidableEq, Repr

/-- The `try` block of `MLSTDataManager.run`: `read_input_json;
download_pubmlst_databases; make_blast_database;
download_scheme_species_map`. Only a `CalledProcessError` from the
downloader is handled locally (by `sys.exit(1)`); a failure to start it
propagates as an ordinary exception. The species-map fetch swallows its
own failures. -/
def mlstBody (e : MlstEnv) : BodyOutcome :=
  match e.readInput with
  | .raise => .exnCaught
  | .ok =>
    match e.download with
    | .nonzero => .sysExit 1
    | .startFailure => .exnCaught
    | .success =>
      match e.fileOps with
      | .raise => .exnCaught
      | .ok =>
        match e.makeblastdb with
        | .success => .normal
        | _ => .exnCaught

/-- The document `MLSTDataManager.write_output_json` writes: value and
name are the `db_name` fixed at construction
(`f"mlst_database_{timestamp}"`), the path is the literal `"mlst-db"`,
and there is no version field. -/
def mlstDoc (ts : String) : CatalogDoc :=
  { table := "mlst",
    entries := [{ value := "mlst_database_" ++ ts,
                  name := "mlst_database_" ++ ts,
                  dbVersion := none,
                  path := "mlst-db" }] }

/-- `MLSTDataManager.run` for a manager constructed with timestamp `ts`:
the `try` block, an `except Exception` handler that only logs, and a
`finally` that always calls `write_output_json()`. A `SystemExit`
resumes after the `finally` and sets the process exit code. -/
def mlstRun (ts : String) (e : MlstEnv) : RunResult :=
  { events := [Event.publishEv (mlstDoc ts)],
    exitCode :=
      match mlstBody e with
      | .sysExit c => c
      | _ => 0 }

/-- How many times a run (over)wrote the job JSON file. -/
def publishCount (r : RunResult) : Nat :=
  r.events.countP (fun ev =>
    match ev with
    | .publishEv _ => true
    | _ => false)

/-- The documents a run published, in order. -/
def publishedDocs (r : RunResult) : List CatalogDoc :=
  r.events.filterMap (fun ev =>
    match ev with
    | .publishEv d => some d
    | _ => none)

/-- A bundle used as a concrete input: one scheme directory `abc` holding
one `.tfa` file whose single record has the exclusion marker inside its
body. -/
def bundleMarkerBody : List MScheme :=
  [⟨"abc".toList, true,
    [⟨"x.tfa".toList,
      [">A\n".toList, "AAA\n".toList, "not a locus\n".toList,
        "TTT\n".toList]⟩]⟩]

/-- A bundle used as a concrete input: one scheme directory `abc` holding
one `.tfa` file with a single marker-free record. -/
def bundleOneRecord : List MScheme :=
  [⟨"abc".toList, true, [⟨"x.tfa".toList, [">A\n".toList]⟩]⟩]

/-- An AMRFinderPlus run whose acquisition fails (updater nonzero). -/
def amrEnvUpdateFail : AmrEnv :=
  ⟨.ok, .nonzero, some "3.12\n", some "2024-01-01.1\n", .ok⟩

/-- An AMRFinderPlus run whose transformation fails (copy raises). -/
def amrEnvCopyFail : AmrEnv :=
  ⟨.ok, .success, some "3.12\n", some "2024-01-01.1\n", .raise⟩

end GalaxyTrakr

namespace GalaxyTrakr

/-- The merge loop over a concatenation of line lists splits into the two
halves' outputs. -/
theorem processFile_append (scheme : List Char) (xs ys : List (List Char)) :
    processFile scheme (xs ++ ys)
      = processFile scheme xs ++ processFile scheme ys := by
  induction xs with
  | nil => rfl
  | cons l t ih => simp [processFile, ih, List.append_assoc]

/-- A line that does not start with the `>` sentinel is written verbatim. -/
theorem processLine_of_not_header (scheme l : List Char)
    (h : l.head? ≠ some '>') : processLine scheme l = l := by
  simp [processLine, h]

/-- A sequence of marker-free non-header lines is copied verbatim. -/
theorem processFile_verbatim (scheme : List Char) (lines : List (List Char))
    (h : ∀ l ∈ lines, hasSub markerL l = false ∧ l.head? ≠ some '>') :
    processFile scheme lines = lines.flatten := by
  induction lines with
  | nil => rfl
  | cons l t ih =>
    obtain ⟨h1, h2⟩ := h l (List.mem_cons_self l t)
    simp [processFile, h1, processLine_of_not_header scheme l h2,
      ih (fun x hx => h x (List.mem_cons_of_mem l hx))]

/-- A line containing the exclusion marker contributes nothing, and the
surrounding lines are processed as if it were absent. -/
theorem processFile_marker_split (scheme l : List Char)
    (pre post : List (List Char)) (h : hasSub markerL l = true) :
    processFile scheme (pre ++ l :: post)
      = processFile scheme pre ++ processFile scheme post := by
  rw [processFile_append]
  simp [processFile, h]

/-- C3 counterexample: a record whose body text contains `"not a locus"`
is not entirely absent from the combined output — its record consists of
the four lines below, its body contains the marker, yet its body line
`"AAA\n"` (and its rewritten identifier line) appears in the combined
output, because the code filters single lines, not records. -/
theorem c3_counterexample :
    hasSub markerL
        ([">A\n".toList, "AAA\n".toList, "not a locus\n".toList,
          "TTT\n".toList].flatten) = true ∧
    mergeOutput bundleMarkerBody = ">abc.A\nAAA\nTTT\n".toList ∧
    hasSub "AAA\n".toList (mergeOutput bundleMarkerBody) = true := by
  refine ⟨by decide, by decide, by decide⟩

/-- C3 (amended): in the merge step, every single line whose text
contains the case-sensitive substring `"not a locus"` is absent from the
combined output — the line contributes nothing, and the remaining lines
of the file are processed as if it were not there. Filtering is
per-line, not per-record. -/
theorem c3_marker_line_dropped (scheme l : List Char)
    (pre post : List (List Char)) (h : hasSub markerL l = true) :
    processFile scheme (pre ++ l :: post)
      = processFile scheme pre ++ processFile scheme post :=
  processFile_marker_split scheme l pre post h

/-- C3 witness: the amended statement at a concrete input. -/
theorem c3_witness :
    processFile "abc".toList
        ([">A\n".toList] ++ "not a locus\n".toList :: ["TTT\n".toList])
      = processFile "abc".toList [">A\n".toList]
          ++ processFile "abc".toList ["TTT\n".toList] :=
  c3_marker_line_dropped "abc".toList "not a locus\n".toList
    [">A\n".toList] ["TTT\n".toList] (by decide)

/-- C4 counterexample: the combined output file is opened in append
mode, so applying the merge step a second time over the same combined
file does not reproduce the same bytes — the file then holds the single
run's output twice. -/
theorem c4_counterexample :
    mergeAppend (mergeAppend [] bundleOneRecord) bundleOneRecord
      ≠ mergeAppend [] bundleOneRecord := by
  decide

/-- C4 (amended): the bytes one merge run appends are a deterministic
function of the bundle (`mergeOutput`), so two runs into fresh, empty
combined files produce byte-identical content; but because `blast_file`
is opened with mode `"a"`, a second run over the same combined file
yields that content twice, which differs from a single run's file
whenever the output is nonempty. -/
theorem c4_append_not_idempotent (e : List Char) (b : List MScheme)
    (h : mergeOutput b ≠ []) :
    mergeAppend e b = e ++ mergeOutput b ∧
    mergeAppend (mergeAppend [] b) b = mergeOutput b ++ mergeOutput b ∧
    mergeAppend (mergeAppend [] b) b ≠ mergeAppend [] b := by
  refine ⟨rfl, by simp [mergeAppend], ?_⟩
  intro heq
  have hlen := congrArg List.length heq
  simp [mergeAppend] at hlen
  exact h hlen

/-- C4 witness: the amended statement at a concrete bundle. -/
theorem c4_witness :
    mergeAppend [] bundleOneRecord = [] ++ mergeOutput bundleOneRecord ∧
    mergeAppend (mergeAppend [] bundleOneRecord) bundleOneRecord
      = mergeOutput bundleOneRecord ++ mergeOutput bundleOneRecord ∧
    mergeAppend (mergeAppend [] bundleOneRecord) bundleOneRecord
      ≠ mergeAppend [] bundleOneRecord :=
  c4_append_not_idempotent [] bundleOneRecord (by decide)

/-- C5: every surviving identifier line (a kept line starting with the
`>` sentinel) is written as the sentinel, then the scheme name, then a
`.` separator, then the rest of the original line verbatim; the
surrounding lines' output is unchanged. -/
theorem c5_identifier_rewritten (scheme l : List Char)
    (pre post : List (List Char))
    (hk : hasSub markerL l = false) (hh : l.head? = some '>') :
    processFile scheme (pre ++ l :: post)
      = processFile scheme pre
          ++ ('>' :: (scheme ++ '.' :: l.tail))
          ++ processFile scheme post := by
  rw [processFile_append]
  simp [processFile, processLine, hk, hh]

/-- C5 witness: the rewriting statement at a concrete input. -/
theorem c5_witness :
    processFile "abc".toList
        (["CCC\n".toList] ++ ">A\n".toList :: ["GGG\n".toList])
      = processFile "abc".toList ["CCC\n".toList]
          ++ ('>' :: ("abc".toList ++ '.' :: ">A\n".toList.tail))
          ++ processFile "abc".toList ["GGG\n".toList] :=
  c5_identifier_rewritten "abc".toList ">A\n".toList ["CCC\n".toList]
    ["GGG\n".toList] (by decide) (by decide)

/-- C9: the exclusion test is per line, not per record. A marker-bearing
body line is dropped while the record's other lines — its identifier
line included, rewritten as usual — are still emitted; and a
marker-bearing identifier line is dropped while its following body
lines are still appended to the output. -/
theorem c9_filter_is_per_line :
    (∀ scheme hdr b₁ m b₂, hasSub markerL hdr = false →
        hdr.head? = some '>' → hasSub markerL m = true →
        (∀ l ∈ b₁, hasSub markerL l = false ∧ l.head? ≠ some '>') →
        (∀ l ∈ b₂, hasSub markerL l = false ∧ l.head? ≠ some '>') →
        processFile scheme (hdr :: (b₁ ++ m :: b₂))
          = ('>' :: (scheme ++ '.' :: hdr.tail))
              ++ b₁.flatten ++ b₂.flatten) ∧
    (∀ scheme hdr body, hasSub markerL hdr = true →
        (∀ l ∈ body, hasSub markerL l = false ∧ l.head? ≠ some '>') →
        processFile scheme (hdr :: body) = body.flatten) := by
  constructor
  · intro scheme hdr b₁ m b₂ hk hh hm h₁ h₂
    have hsplit :
        processFile scheme (b₁ ++ m :: b₂)
          = processFile scheme b₁ ++ processFile scheme b₂ :=
      processFile_marker_split scheme m b₁ b₂ hm
    simp [processFile, hk, processLine, hh, hsplit,
      processFile_verbatim scheme b₁ h₁, processFile_verbatim scheme b₂ h₂,
      List.append_assoc]
  · intro scheme hdr body hm hb
    simp [processFile, hm, processFile_verbatim scheme body hb]

/-- C9 witness: both per-line phenomena at concrete inputs. -/
theorem c9_witness :
    processFile "abc".toList
        (">A\n".toList :: (["AAA\n".toList]
          ++ "not a locus\n".toList :: ["TTT\n".toList]))
      = ('>' :: ("abc".toList ++ '.' :: ">A\n".toList.tail))
          ++ ["AAA\n".toList].flatten ++ ["TTT\n".toList].flatten ∧
    processFile "abc".toList ("Bad not a locus\n".toList :: ["AAA\n".toList])
      = ["AAA\n".toList].flatten :=
  ⟨c9_filter_is_per_line.1 "abc".toList ">A\n".toList ["AAA\n".toList]
      "not a locus\n".toList ["TTT\n".toList] (by decide) (by decide)
      (by decide) (by decide) (by decide),
    c9_filter_is_per_line.2 "abc".toList "Bad not a locus\n".toList
      ["AAA\n".toList] (by decide) (by decide)⟩

/-- C1: for every run of either pipeline — whatever each stage does,
including an exception while reading the input JSON, during
acquisition, transformation or version resolution — the job JSON
catalog file is (over)written exactly once, by the `finally` block. -/
theorem c1_publish_exactly_once (e : AmrEnv) (ts : String) (me : MlstEnv) :
    publishCount (amrRun e) = 1 ∧ publishCount (mlstRun ts me) = 1 :=
  ⟨rfl, rfl⟩

/-- C2 counterexample: in an MLST run whose acquisition fails (the
downloader returns nonzero), the catalog file is written, but the
published entry has no version/format field at all, and none of its
fields equals the sentinel `"unknown"` — the entry is the fixed
timestamp-derived one. -/
theorem c2_counterexample :
    publishedDocs (mlstRun "20240101_000000" ⟨.ok, .nonzero, .ok, .success, .ok⟩)
      = [mlstDoc "20240101_000000"] ∧
    (mlstDoc "20240101_000000").entries
      = [{ value := "mlst_database_20240101_000000",
           name := "mlst_database_20240101_000000",
           dbVersion := none,
           path := "mlst-db" }] ∧
    ("mlst_database_20240101_000000" : String) ≠ "unknown" ∧
    ("mlst-db" : String) ≠ "unknown" := by
  refine ⟨rfl, rfl, by decide, by decide⟩

/-- C2 (amended): when acquisition or transformation fails, the catalog
file is still written exactly once in both pipelines; in the
AMRFinderPlus pipeline the resolved version/format pair — hence the
published entry's version fields — equals the sentinel
`("unknown", "unknown")`; the MLST pipeline's entry has no
version/format fields and is the same timestamp-derived entry as on
success. -/
theorem c2_catalog_on_failure (e : AmrEnv) (ts : String) (me : MlstEnv)
    (hA : e.update ≠ ProcOutcome.success ∨ e.copy = SR.raise)
    (_hM : me.download ≠ ProcOutcome.success ∨ me.fileOps = SR.raise
      ∨ me.makeblastdb ≠ ProcOutcome.success) :
    amrResolved e = ("unknown", "unknown") ∧
    publishedDocs (amrRun e) = [amrEntry ("unknown", "unknown")] ∧
    publishCount (amrRun e) = 1 ∧
    publishCount (mlstRun ts me) = 1 ∧
    publishedDocs (mlstRun ts me) = [mlstDoc ts] := by
  have hres : amrResolved e = ("unknown", "unknown") := by
    rcases e with ⟨ri, up, vf, df, cp⟩
    rcases hA with h | h
    · cases ri <;> cases up <;> cases vf <;> cases df <;>
        simp_all [amrResolved, amrBody]
    · cases ri <;> cases up <;> cases vf <;> cases df <;>
        simp_all [amrResolved, amrBody]
  refine ⟨hres, ?_, rfl, rfl, rfl⟩
  simp [publishedDocs, amrRun, hres]

/-- C2 witness: the amended statement at concrete failing runs. -/
theorem c2_witness :
    amrResolved ⟨.ok, .nonzero, some "3.12\n", some "2024-01-01.1\n", .ok⟩
      = ("unknown", "unknown") ∧
    publishedDocs (amrRun ⟨.ok, .nonzero, some "3.12\n", some "2024-01-01.1\n", .ok⟩)
      = [amrEntry ("unknown", "unknown")] ∧
    publishCount (amrRun ⟨.ok, .nonzero, some "3.12\n", some "2024-01-01.1\n", .ok⟩) = 1 ∧
    publishCount (mlstRun "20240101_000000" ⟨.ok, .nonzero, .ok, .success, .ok⟩) = 1 ∧
    publishedDocs (mlstRun "20240101_000000" ⟨.ok, .nonzero, .ok, .success, .ok⟩)
      = [mlstDoc "20240101_000000"] :=
  c2_catalog_on_failure ⟨.ok, .nonzero, some "3.12\n", some "2024-01-01.1\n", .ok⟩
    "20240101_000000" ⟨.ok, .nonzero, .ok, .success, .ok⟩
    (Or.inl (by decide)) (Or.inl (by decide))

/-- C6 counterexample: the MLST pipeline exits 1 precisely when the
scheme downloader is started and returns a nonzero status — not when
its invocation cannot be started: in that latter case the
`FileNotFoundError` is swallowed by the blanket handler and the run
exits 0. -/
theorem c6_counterexample :
    (mlstRun "20240101_000000" ⟨.ok, .nonzero, .ok, .success, .ok⟩).exitCode = 1 ∧
    ProcOutcome.nonzero ≠ ProcOutcome.startFailure ∧
    (mlstRun "20240101_000000" ⟨.ok, .startFailure, .ok, .success, .ok⟩).exitCode
      = 0 := by
  refine ⟨rfl, by decide, rfl⟩

/-- C6 (amended): the AMRFinderPlus pipeline always exits 0; the MLST
pipeline exits 1 exactly when the input JSON was read and the scheme
downloader ran and returned a nonzero status (`CalledProcessError` →
`sys.exit(1)`), and exits 0 in every other case — including when the
downloader invocation itself cannot be started. -/
theorem c6_exit_codes (e : AmrEnv) (ts : String) (me : MlstEnv) :
    (amrRun e).exitCode = 0 ∧
    (mlstRun ts me).exitCode
      = (if me.readInput = SR.ok ∧ me.download = ProcOutcome.nonzero
          then 1 else 0) := by
  refine ⟨rfl, ?_⟩
  rcases me with ⟨ri, dl, fo, mb, sm⟩
  cases ri <;> cases dl <;> cases fo <;> cases mb <;>
    simp [mlstRun, mlstBody]

/-- C7: with metadata files `"3.12\n"` and `"2024-01-01.1\n"` and all
stages succeeding, the resolved pair is `("3.12", "2024-01-01.1")`
(first line of each file, stripped); when either file is missing, the
run continues — the sentinel pair is substituted, the catalog is still
written once and the process exits 0. -/
theorem c7_version_resolution (e e' : AmrEnv)
    (h₁ : e.readInput = SR.ok) (h₂ : e.update = ProcOutcome.success)
    (h₃ : e.versionFile = some "3.12\n")
    (h₄ : e.dbfmtFile = some "2024-01-01.1\n")
    (h₅ : e.copy = SR.ok)
    (h₆ : e'.versionFile = none ∨ e'.dbfmtFile = none) :
    amrResolved e = ("3.12", "2024-01-01.1") ∧
    amrResolved e' = ("unknown", "unknown") ∧
    (amrRun e').exitCode = 0 ∧
    publishCount (amrRun e') = 1 := by
  refine ⟨?_, ?_, rfl, rfl⟩
  · rcases e with ⟨ri, up, vf, df, cp⟩
    simp only at h₁ h₂ h₃ h₄ h₅
    subst h₁ h₂ h₃ h₄ h₅
    decide
  · rcases e' with ⟨ri, up, vf, df, cp⟩
    cases ri <;> cases up <;> cases cp <;> cases vf <;> cases df <;>
      simp_all [amrResolved, amrBody]

/-- C7 witness: the resolution statement at concrete environments. -/
theorem c7_witness :
    amrResolved ⟨.ok, .success, some "3.12\n", some "2024-01-01.1\n", .ok⟩
      = ("3.12", "2024-01-01.1") ∧
    amrResolved ⟨.ok, .success, none, some "2024-01-01.1\n", .ok⟩
      = ("unknown", "unknown") ∧
    (amrRun ⟨.ok, .success, none, some "2024-01-01.1\n", .ok⟩).exitCode = 0 ∧
    publishCount (amrRun ⟨.ok, .success, none, some "2024-01-01.1\n", .ok⟩) = 1 :=
  c7_version_resolution
    ⟨.ok, .success, some "3.12\n", some "2024-01-01.1\n", .ok⟩
    ⟨.ok, .success, none, some "2024-01-01.1\n", .ok⟩
    rfl rfl rfl rfl rfl (Or.inl rfl)

/-- C8 counterexample: uniqueness of the `value` field across repeated
runs is not guaranteed — two distinct failing AMRFinderPlus runs both
publish the value `"amrfinderplus_unknown_unknown"`, so their catalog
entries collide. -/
theorem c8_counterexample :
    amrEnvUpdateFail ≠ amrEnvCopyFail ∧
    publishedDocs (amrRun amrEnvUpdateFail)
      = publishedDocs (amrRun amrEnvCopyFail) ∧
    (amrEntry (amrResolved amrEnvUpdateFail)).entries.map CatalogEntry.value
      = ["amrfinderplus_unknown_unknown"] := by
  refine ⟨by decide, by decide, by decide⟩

/-- C8 (amended): the published `value` is derived deterministically —
`"amrfinderplus_<version>_<dbformat>"` from the resolved pair, and
`"mlst_database_<timestamp>"` from the construction-time timestamp —
and that very determinism means runs with equal resolved pairs (or
equal timestamps) publish equal, not unique, values. -/
theorem c8_value_derivation (e : AmrEnv) (ts : String) (me : MlstEnv) :
    (amrEntry (amrResolved e)).entries.map CatalogEntry.value
      = ["amrfinderplus_" ++ (amrResolved e).1 ++ "_" ++ (amrResolved e).2] ∧
    publishedDocs (amrRun e) = [amrEntry (amrResolved e)] ∧
    (mlstDoc ts).entries.map CatalogEntry.value = ["mlst_database_" ++ ts] ∧
    publishedDocs (mlstRun ts me) = [mlstDoc ts] ∧
    (∀ e₂, amrResolved e = amrResolved e₂ →
        publishedDocs (amrRun e) = publishedDocs (amrRun e₂)) := by
  refine ⟨rfl, rfl, rfl, rfl, ?_⟩
  intro e₂ h
  simp [publishedDocs, amrRun, h]

/-- C8 witness: the derivation statement instantiated, with the
determinism consequence discharged at two concrete runs that resolve to
the same pair. -/
theorem c8_witness :
    (amrEntry (amrResolved amrEnvUpdateFail)).entries.map CatalogEntry.value
      = ["amrfinderplus_" ++ (amrResolved amrEnvUpdateFail).1 ++ "_"
          ++ (amrResolved amrEnvUpdateFail).2] ∧
    publishedDocs (amrRun amrEnvUpdateFail)
      = publishedDocs (amrRun amrEnvCopyFail) :=
  ⟨(c8_value_derivation amrEnvUpdateFail "20240101_000000"
      ⟨.ok, .success, .ok, .success, .ok⟩).1,
    (c8_value_derivation amrEnvUpdateFail "20240101_000000"
      ⟨.ok, .success, .ok, .success, .ok⟩).2.2.2.2 amrEnvCopyFail (by decide)⟩

/-- C10: the MLST catalog entry is fixed at construction time — value
and name are `"mlst_database_<timestamp>"` and the path is `"mlst-db"`
— so two runs with the same timestamp publish identical documents
whatever their stages did: a failed run's catalog is indistinguishable
from a successful run's. -/
theorem c10_mlst_entry_fixed (ts : String) (me₁ me₂ : MlstEnv) :
    publishedDocs (mlstRun ts me₁) = publishedDocs (mlstRun ts me₂) ∧
    publishedDocs (mlstRun ts me₁) = [mlstDoc ts] ∧
    mlstDoc ts
      = { table := "mlst",
          entries := [{ value := "mlst_database_" ++ ts,
                        name := "mlst_database_" ++ ts,
                        dbVersion := none,
                        path := "mlst-db" }] } :=
  ⟨rfl, rfl, rfl⟩

end GalaxyTrakr
